import Mathlib

/-!
Shallow embedding of `api/index.py` (swipe-captcha backend) and proofs about
its verification protocol.

The embedding models:
* JSON values (`JVal`) as received by `request.get_json`, with Python
  truthiness, `int(...)` coercion, `str(...)` rendering and subscripting;
* the helpers `sign_challenge` / `verify_signature` (HMAC-SHA256, executable);
* the challenge store (`challenges` dict) as an association list;
* the `api_verify` endpoint as a pure function from (store, now, body) to
  (result, store).
-/

namespace Aman

/-- JSON values, as produced by `request.get_json` (numbers restricted to
integers, the only shape the protocol uses). -/
inductive JVal where
  | null
  | bool (b : Bool)
  | num (n : Int)
  | str (s : String)
  | arr (xs : List JVal)
  | obj (fields : List (String × JVal))

/-- Python truthiness of a JSON value: `None`, `False`, `0`, `""`, `[]`, `\x7b\x7d`
are falsy, everything else truthy. -/
def truthy : JVal → Bool
  | .null => false
  | .bool b => b
  | .num n => n != 0
  | .str s => s != ""
  | .arr xs => !xs.isEmpty
  | .obj fs => !fs.isEmpty

/-- `dict.get(k)` on a JSON object: last binding wins (as in `json.loads`). -/
def objGet (fs : List (String × JVal)) (k : String) : Option JVal :=
  fs.foldl (fun acc p => if p.1 = k then some p.2 else acc) none

mutual

/-- Python `repr` of a JSON-shaped value (used by f-string interpolation of
containers; string escaping inside containers is not modelled since no claim
reaches it). -/
def pyRepr : JVal → String
  | .null => "None"
  | .bool true => "True"
  | .bool false => "False"
  | .num n => toString n
  | .str s => "\x27" ++ s ++ "\x27"
  | .arr xs => "[" ++ pyReprList xs ++ "]"
  | .obj fs => "\x7b" ++ pyReprFields fs ++ "\x7d"

/-- Comma-separated `repr` of list elements. -/
def pyReprList : List JVal → String
  | [] => ""
  | [v] => pyRepr v
  | v :: w :: rest => pyRepr v ++ ", " ++ pyReprList (w :: rest)

/-- Comma-separated `repr` of dict entries. -/
def pyReprFields : List (String × JVal) → String
  | [] => ""
  | [(k, v)] => "\x27" ++ k ++ "\x27: " ++ pyRepr v
  | (k, v) :: w :: rest => "\x27" ++ k ++ "\x27: " ++ pyRepr v ++ ", " ++ pyReprFields (w :: rest)

end

/-- Python `str(...)` / f-string rendering of a JSON value. -/
def pyStr : JVal → String
  | .str s => s
  | v => pyRepr v

/-- Characters stripped by Python `int(...)` around a numeric string. -/
def isPySpace (c : Char) : Bool :=
  c == ' ' || c == '\t' || c == '\n' || c == '\r'

/-- Decimal value of a digit list. -/
def digitsToNat (cs : List Char) : Nat :=
  cs.foldl (fun a c => a * 10 + (c.toNat - '0'.toNat)) 0

/-- Python `int(s)` on a string: optional surrounding whitespace, optional
sign, then a non-empty run of decimal digits; anything else raises
(`ValueError`), modelled as `none`. -/
def pyParseInt (s : String) : Option Int :=
  let cs := ((s.toList.dropWhile isPySpace).reverse.dropWhile isPySpace).reverse
  match cs with
  | [] => none
  | '-' :: rest =>
      if !rest.isEmpty && rest.all Char.isDigit then some (-(digitsToNat rest : Int)) else none
  | '+' :: rest =>
      if !rest.isEmpty && rest.all Char.isDigit then some (digitsToNat rest : Int) else none
  | _ =>
      if cs.all Char.isDigit then some (digitsToNat cs : Int) else none

/-- Python `int(v)` on a JSON value: ints pass through, bools coerce to 0/1,
strings parse; `None`, lists and dicts raise, modelled as `none`. -/
def pyInt : JVal → Option Int
  | .num n => some n
  | .bool b => some (if b then 1 else 0)
  | .str s => pyParseInt s
  | _ => none

/-! ## Bytes, SHA-256, HMAC, base64 (executable models of `hashlib`, `hmac`,
`base64` as used by the source) -/

/-- UTF-8 encoding of a single code point. -/
def utf8Encode (c : Nat) : List Nat :=
  if c < 128 then [c]
  else if c < 2048 then [192 + c / 64, 128 + c % 64]
  else if c < 65536 then [224 + c / 4096, 128 + (c / 64) % 64, 128 + c % 64]
  else [240 + c / 262144, 128 + (c / 4096) % 64, 128 + (c / 64) % 64, 128 + c % 64]

/-- Python `s.encode()`: UTF-8 bytes of a string. -/
def strBytes (s : String) : List Nat :=
  (s.toList.map (fun c => utf8Encode c.toNat)).flatten

/-- 32-bit truncating addition. -/
def add32 (a b : Nat) : Nat := (a + b) % 4294967296

/-- 32-bit right rotation. -/
def rotr32 (n x : Nat) : Nat :=
  ((x >>> n) ||| (x <<< (32 - n))) % 4294967296

/-- SHA-256 round constants. -/
def shaK : List Nat :=
  [1116352408, 1899447441, 3049323471, 3921009573, 961987163, 1508970993,
   2453635748, 2870763221, 3624381080, 310598401, 607225278, 1426881987,
   1925078388, 2162078206, 2614888103, 3248222580, 3835390401, 4022224774,
   264347078, 604807628, 770255983, 1249150122, 1555081692, 1996064986,
   2554220882, 2821834349, 2952996808, 3210313671, 3336571891, 3584528711,
   113926993, 338241895, 666307205, 773529912, 1294757372, 1396182291,
   1695183700, 1986661051, 2177026350, 2456956037, 2730485921, 2820302411,
   3259730800, 3345764771, 3516065817, 3600352804, 4094571909, 275423344,
   430227734, 506948616, 659060556, 883997877, 958139571, 1322822218,
   1537002063, 1747873779, 1955562222, 2024104815, 2227730452, 2361852424,
   2428436474, 2756734187, 3204031479, 3329325298]

/-- SHA-256 initial hash state. -/
def shaH0 : List Nat :=
  [1779033703, 3144134277, 1013904242, 2773480762, 1359893119, 2600822924, 528734635, 1541459225]

/-- Big-endian byte rendering of a value in `n` bytes. -/
def bytesBE (n v : Nat) : List Nat :=
  (List.range n).map (fun i => (v >>> (8 * (n - 1 - i))) % 256)

/-- SHA-256 padding: append `0x80`, zeros to 56 mod 64, then the bit length. -/
def shaPad (m : List Nat) : List Nat :=
  let L := m.length
  let k := (119 - (L % 64)) % 64
  m ++ [0x80] ++ List.replicate k 0 ++ bytesBE 8 (8 * L)

/-- Split into 64-byte blocks (fuel-structured so the kernel can reduce it). -/
def blocks64 : Nat → List Nat → List (List Nat)
  | 0, _ => []
  | _, [] => []
  | fuel + 1, l => l.take 64 :: blocks64 fuel (l.drop 64)

/-- Big-endian 32-bit word from four bytes. -/
def wordBE (bs : List Nat) : Nat :=
  bs.foldl (fun a b => a * 256 + b) 0

/-- The 64-entry SHA-256 message schedule of one block. -/
def shaSchedule (block : List Nat) : Array Nat :=
  let w0 : Array Nat := ((List.range 16).map (fun i => wordBE ((block.drop (4 * i)).take 4))).toArray
  (List.range 48).foldl
    (fun w i =>
      let t := i + 16
      let x15 := w.getD (t - 15) 0
      let x2 := w.getD (t - 2) 0
      let s0 := rotr32 7 x15 ^^^ rotr32 18 x15 ^^^ (x15 >>> 3)
      let s1 := rotr32 17 x2 ^^^ rotr32 19 x2 ^^^ (x2 >>> 10)
      w.push ((s1 + w.getD (t - 7) 0 + s0 + w.getD (t - 16) 0) % 4294967296))
    w0

/-- One SHA-256 compression step over a block. -/
def shaCompress (h : List Nat) (block : List Nat) : List Nat :=
  let w := shaSchedule block
  let init := (h.getD 0 0, h.getD 1 0, h.getD 2 0, h.getD 3 0,
               h.getD 4 0, h.getD 5 0, h.getD 6 0, h.getD 7 0)
  let fin := (List.range 64).foldl
    (fun s i =>
      let (a, b, c, d, e, f, g, hh) := s
      let S1 := rotr32 6 e ^^^ rotr32 11 e ^^^ rotr32 25 e
      let ch := (e &&& f) ^^^ ((e ^^^ 4294967295) &&& g)
      let t1 := (hh + S1 + ch + shaK.getD i 0 + w.getD i 0) % 4294967296
      let S0 := rotr32 2 a ^^^ rotr32 13 a ^^^ rotr32 22 a
      let mj := (a &&& b) ^^^ (a &&& c) ^^^ (b &&& c)
      let t2 := (S0 + mj) % 4294967296
      (add32 t1 t2, a, b, c, add32 d t1, e, f, g))
    init
  [add32 (h.getD 0 0) fin.1, add32 (h.getD 1 0) fin.2.1,
   add32 (h.getD 2 0) fin.2.2.1, add32 (h.getD 3 0) fin.2.2.2.1,
   add32 (h.getD 4 0) fin.2.2.2.2.1, add32 (h.getD 5 0) fin.2.2.2.2.2.1,
   add32 (h.getD 6 0) fin.2.2.2.2.2.2.1, add32 (h.getD 7 0) fin.2.2.2.2.2.2.2]

/-- SHA-256 digest (32 bytes) of a byte list. -/
def sha256 (m : List Nat) : List Nat :=
  let padded := shaPad m
  let st := (blocks64 (padded.length) padded).foldl shaCompress shaH0
  (st.map (bytesBE 4)).flatten

/-- Lower-case hex digit. -/
def hexChar (n : Nat) : Char :=
  if n < 10 then Char.ofNat ('0'.toNat + n) else Char.ofNat ('a'.toNat + n - 10)

/-- Lower-case hex string of a byte list (`.hexdigest()`). -/
def toHex (bs : List Nat) : String :=
  String.mk ((bs.map (fun b => [hexChar (b / 16), hexChar (b % 16)])).flatten)

/-- HMAC-SHA256 (`hmac.new(key, msg, hashlib.sha256)`), 64-byte block size. -/
def hmacSha256 (key msg : List Nat) : List Nat :=
  let k0 := if key.length > 64 then sha256 key else key
  let k := k0 ++ List.replicate (64 - k0.length) 0
  let ipad := k.map (fun b => b ^^^ 0x36)
  let opad := k.map (fun b => b ^^^ 0x5c)
  sha256 (opad ++ sha256 (ipad ++ msg))

/-- Base64 alphabet character. -/
def b64Char (n : Nat) : Char :=
  if n < 26 then Char.ofNat ('A'.toNat + n)
  else if n < 52 then Char.ofNat ('a'.toNat + n - 26)
  else if n < 62 then Char.ofNat ('0'.toNat + n - 52)
  else if n = 62 then '+'
  else '/'

/-- Base64 encoding of a byte list (`base64.b64encode(...).decode()`). -/
def b64encode : List Nat → String
  | a :: b :: c :: rest =>
      String.mk [b64Char (a / 4), b64Char ((a % 4) * 16 + b / 16),
                 b64Char ((b % 16) * 4 + c / 64), b64Char (c % 64)] ++ b64encode rest
  | [a, b] =>
      String.mk [b64Char (a / 4), b64Char ((a % 4) * 16 + b / 16),
                 b64Char ((b % 16) * 4), '=']
  | [a] =>
      String.mk [b64Char (a / 4), b64Char ((a % 4) * 16), '=', '=']
  | [] => ""

/-! ## Signer (`sign_challenge` / `verify_signature`) -/

/-- The process-wide secret key (`SECRET_KEY`), as bytes. -/
def SECRET_KEY : List Nat := strBytes "replace_this_with_a_real_secret"

/-- `sign_challenge(challenge_id, ts)`: HMAC-SHA256 hexdigest over the UTF-8
encoding of the string `challenge_id ++ "|" ++ str(ts)`. -/
def sign_challenge (challenge_id : String) (ts : Int) : String :=
  toHex (hmacSha256 SECRET_KEY (strBytes (challenge_id ++ "|" ++ toString ts)))

/-- Whether every character of a string is ASCII: CPython's
`hmac.compare_digest` only accepts ASCII `str` arguments. -/
def isAsciiStr (s : String) : Bool :=
  s.data.all (fun c => decide (c.toNat < 128))

/-- `hmac.compare_digest` on `str` arguments: raises `TypeError` (modelled as
`none`) when either argument contains a non-ASCII character; otherwise
returns constant-time equality (the timing behaviour is not observable in a
shallow embedding, so the result is plain equality). -/
def compare_digest (a b : String) : Option Bool :=
  if isAsciiStr a && isAsciiStr b then some (a == b) else none

/-- `verify_signature(challenge_id, ts, signature)`; `none` models the
`TypeError` that `compare_digest` raises on a non-ASCII signature. -/
def verify_signature (challenge_id : String) (ts : Int) (signature : String) : Option Bool :=
  compare_digest (sign_challenge challenge_id ts) signature

/-! ## Challenge store -/

/-- Per-challenge metadata held in the `challenges` dict. -/
structure ChallengeMeta where
  created : Int
  min_drag : Int
  secret : String
deriving DecidableEq, Repr

/-- The `challenges` dict, as an association list keyed by challenge id. -/
abbrev Store := List (String × ChallengeMeta)

/-- `challenges.get(key)` where the key is a raw JSON value: only string keys
can ever be present (ids are uuid strings); hashable non-string keys miss.
Unhashable keys (lists, dicts) are handled by the caller as a crash. -/
def challengeLookup (store : Store) (key : JVal) : Option ChallengeMeta :=
  match key with
  | .str s => store.foldl (fun acc p => if p.1 = s then some p.2 else acc) none
  | _ => none

/-- `challenges.pop(key, None)` for hashable keys: remove the binding if the
key is a string, otherwise a no-op (ids in the store are strings). -/
def storePop (store : Store) (key : JVal) : Store :=
  match key with
  | .str s => store.filter (fun p => p.1 != s)
  | _ => store

/-! ## The verify endpoint (`api_verify`, `api/index.py` lines 218-286) -/

/-- Result of one verify call: a success JSON with a token, a failure JSON
with an error name and HTTP status code, or an uncaught exception (HTTP 500,
e.g. `compare_digest` on a non-string, or a dict operation on an unhashable
key). -/
inductive VerifyResult where
  | success (token : String)
  | failure (error : String) (code : Nat)
  | crash
deriving DecidableEq, Repr

/-- `int(p['t']) if isinstance(p, dict) else int(p[0])` for one sample:
`none` models any raised exception (KeyError, IndexError, TypeError,
ValueError). Subscripting a string yields its first character, which `int`
accepts when it is a digit. -/
def sampleT (p : JVal) : Option Int :=
  match p with
  | .obj fs => (objGet fs "t").bind pyInt
  | .arr xs => xs.head?.bind pyInt
  | .str s =>
      match s.toList with
      | [] => none
      | c :: _ => if c.isDigit then some ((c.toNat - '0'.toNat : Nat) : Int) else none
  | _ => none

/-- `int(p['x']) if isinstance(p, dict) else int(p[1])` for one sample. -/
def sampleX (p : JVal) : Option Int :=
  match p with
  | .obj fs => (objGet fs "x").bind pyInt
  | .arr xs => (xs.get? 1).bind pyInt
  | .str s =>
      match s.toList with
      | _ :: c :: _ => if c.isDigit then some ((c.toNat - '0'.toNat : Nat) : Int) else none
      | _ => none
  | _ => none

/-- The monotonicity loop (lines 264-266): `true` iff no sample time is less
than or equal to its predecessor. -/
def timesIncreasing : List Int → Bool
  | a :: b :: rest => decide (a < b) && timesIncreasing (b :: rest)
  | _ => true

/-- `meta.get('min_drag') if meta else 230` (line 276): the drag threshold
for a challenge id, defaulting to 230 when the store has no metadata. -/
def minDragOf (store : Store) (challenge_id : JVal) : Int :=
  match challengeLookup store challenge_id with
  | some meta => meta.min_drag
  | none => 230

/-- Outcome of the optional trace-heuristics block. -/
inductive HeurOutcome where
  | pass
  | reject (error : String)
  | crash
deriving DecidableEq, Repr

/-- The trace-heuristics block of `api_verify` (lines 255-279): run only when
`points` is a non-empty list; parse all times then all xs (any exception is
`malformed_points`), require strictly increasing times, a total elapsed time
in [60, 10000] ms, and a final position reaching the stored `min_drag`
(default 230 when the id has no stored metadata). -/
def checkPoints (store : Store) (challenge_id : JVal) (points : JVal) : HeurOutcome :=
  match points with
  | .arr ps =>
      if ps.isEmpty then .pass
      else
        match ps.mapM sampleT with
        | none => .reject "malformed_points"
        | some times =>
          match ps.mapM sampleX with
          | none => .reject "malformed_points"
          | some xs =>
            if !timesIncreasing times then .reject "bad_timing"
            else
              let total_ms := times.getLastD 0 - times.headD 0
              if total_ms < 60 then .reject "too_fast"
              else if total_ms > 10000 then .reject "too_slow"
              else
                match challenge_id with
                | .arr _ => .crash
                | .obj _ => .crash
                | _ =>
                  let min_drag := minDragOf store challenge_id
                  if xs.getLastD 0 < min_drag then .reject "incomplete" else .pass
  | _ => .pass

/-- Python `proof != expected_proof` negated: a raw JSON value equals a
string only when it is that string. -/
def proofMatches (proof : JVal) (expected : String) : Bool :=
  match proof with
  | .str s => s == expected
  | _ => false

/-- The final success token: HMAC-SHA256 hexdigest of the id alone. -/
def final_token (challenge_id : String) : String :=
  toHex (hmacSha256 SECRET_KEY (strBytes challenge_id))

/-- `api_verify` (lines 218-286) as a pure function: takes the current store,
the wall clock `now = int(time.time())`, and the parsed JSON body; returns
the HTTP outcome and the store after the call. -/
def api_verify (store : Store) (now : Int) (data : List (String × JVal)) :
    VerifyResult × Store :=
  let challenge_id := (objGet data "challenge_id").getD .null
  let timestamp := (objGet data "timestamp").getD .null
  let signature := (objGet data "signature").getD .null
  let proof := (objGet data "proof").getD (.str "")
  let points := (objGet data "points").getD (.arr [])
  if !(truthy challenge_id && truthy timestamp && truthy signature) then
    (.failure "missing_params" 400, store)
  else
    match pyInt timestamp with
    | none => (.failure "bad_timestamp" 400, store)
    | some ts =>
      if now - ts > 120 then (.failure "expired" 400, store)
      else
        match signature with
        | .str sig =>
          match verify_signature (pyStr challenge_id) ts sig with
          | none => (.crash, store)
          | some ok =>
            if !ok then
              (.failure "invalid_signature" 403, store)
            else
              let expected_proof := b64encode (strBytes ("swiped-" ++ pyStr challenge_id))
              if !proofMatches proof expected_proof then
                (.failure "invalid_proof" 400, store)
              else
                match checkPoints store challenge_id points with
                | .reject e => (.failure e 400, store)
                | .crash => (.crash, store)
                | .pass =>
                  match challenge_id with
                  | .arr _ => (.crash, store)
                  | .obj _ => (.crash, store)
                  | _ => (.success (final_token (pyStr challenge_id)), storePop store challenge_id)
        | _ => (.crash, store)

/-- Outcome of a verify call that passed every check before the heuristics
block, as a function of that block's outcome (lines 255-286). -/
def afterChecks (store : Store) (cid : String) (o : HeurOutcome) : VerifyResult × Store :=
  match o with
  | .pass => (.success (final_token cid), storePop store (.str cid))
  | .reject e => (.failure e 400, store)
  | .crash => (.crash, store)

/-! ## Supporting lemmas -/

lemma bytesBE_length (n v : Nat) : (bytesBE n v).length = n := by
  simp [bytesBE]

lemma shaCompress_length (h b : List Nat) : (shaCompress h b).length = 8 := rfl

lemma foldl_shaCompress_length (bs : List (List Nat)) (h : List Nat) (hh : h.length = 8) :
    (bs.foldl shaCompress h).length = 8 := by
  induction bs generalizing h with
  | nil => simpa using hh
  | cons b rest ih => simpa using ih (shaCompress h b) (shaCompress_length h b)

lemma length_flatten_const {α β : Type} (l : List α) (f : α → List β) (c : Nat)
    (hf : ∀ a, (f a).length = c) : ((l.map f).flatten).length = l.length * c := by
  induction l with
  | nil => simp
  | cons a rest ih => simp [hf, ih, Nat.succ_mul, Nat.add_comm]

lemma sha256_length (m : List Nat) : (sha256 m).length = 32 := by
  have hst : ((blocks64 (shaPad m).length (shaPad m)).foldl shaCompress shaH0).length = 8 :=
    foldl_shaCompress_length _ _ rfl
  unfold sha256
  rw [length_flatten_const _ _ 4 (fun v => bytesBE_length 4 v), hst]

lemma hmacSha256_length (key msg : List Nat) : (hmacSha256 key msg).length = 32 := by
  unfold hmacSha256
  exact sha256_length _

lemma toHex_data_length (bs : List Nat) : (toHex bs).data.length = 2 * bs.length := by
  have h : (toHex bs).data = (bs.map (fun b => [hexChar (b / 16), hexChar (b % 16)])).flatten := rfl
  rw [h, length_flatten_const bs (fun b => [hexChar (b / 16), hexChar (b % 16)]) 2 (fun _ => rfl)]
  omega

lemma sign_challenge_ne_empty (cid : String) (ts : Int) : sign_challenge cid ts ≠ "" := by
  intro h
  have h2 := congrArg (fun s => s.data.length) h
  simp only [sign_challenge] at h2
  rw [toHex_data_length, hmacSha256_length] at h2
  simp at h2

lemma hexChar_toNat_lt (n : Nat) (h : n < 16) : (hexChar n).toNat < 128 := by
  interval_cases n <;> decide

lemma all_ascii_hex_flatten (bs : List Nat) (h : ∀ x ∈ bs, x < 256) :
    ((bs.map (fun b => [hexChar (b / 16), hexChar (b % 16)])).flatten).all
      (fun c => decide (c.toNat < 128)) = true := by
  induction bs with
  | nil => rfl
  | cons b rest ih =>
    have hb : b < 256 := h b (by simp)
    have h1 : (hexChar (b / 16)).toNat < 128 := hexChar_toNat_lt _ (by omega)
    have h2 : (hexChar (b % 16)).toNat < 128 := hexChar_toNat_lt _ (by omega)
    simp only [List.map_cons, List.flatten_cons, List.all_append, List.all_cons, List.all_nil]
    simp only [h1, h2, decide_true_eq_true, decide_eq_true_eq]
    simpa [h1, h2] using ih (fun x hx => h x (by simp [hx]))

lemma isAsciiStr_toHex (bs : List Nat) (h : ∀ x ∈ bs, x < 256) :
    isAsciiStr (toHex bs) = true :=
  all_ascii_hex_flatten bs h

lemma mem_bytesBE_lt (n v : Nat) : ∀ x ∈ bytesBE n v, x < 256 := by
  intro x hx
  simp only [bytesBE, List.mem_map] at hx
  obtain ⟨i, -, rfl⟩ := hx
  exact Nat.mod_lt _ (by norm_num)

lemma mem_sha256_lt (m : List Nat) : ∀ x ∈ sha256 m, x < 256 := by
  intro x hx
  unfold sha256 at hx
  simp only [List.mem_flatten, List.mem_map] at hx
  obtain ⟨l, ⟨w, -, rfl⟩, hxl⟩ := hx
  exact mem_bytesBE_lt 4 w x hxl

lemma sign_challenge_ascii (cid : String) (ts : Int) :
    isAsciiStr (sign_challenge cid ts) = true := by
  have h : ∀ x ∈ hmacSha256 SECRET_KEY (strBytes (cid ++ "|" ++ toString ts)), x < 256 := by
    unfold hmacSha256
    exact mem_sha256_lt _
  exact isAsciiStr_toHex _ h

/-- The branch names the heuristics block can reject with. -/
lemma checkPoints_reject_cases (store : Store) (cid pts : JVal) (e : String)
    (h : checkPoints store cid pts = .reject e) :
    e = "malformed_points" ∨ e = "bad_timing" ∨ e = "too_fast" ∨ e = "too_slow" ∨
      e = "incomplete" := by
  unfold checkPoints at h
  repeat' split at h
  all_goals try simp_all
  repeat' split at h
  all_goals simp_all

/-- A call whose presence, parse, expiry, signature and proof checks succeed
reduces to the heuristics block: its rejection, or success plus consumption
of the store entry. -/
lemma api_verify_valid (store : Store) (now : Int) (data : List (String × JVal))
    (cid : String) (tsv : JVal) (ts : Int)
    (hcid : (objGet data "challenge_id").getD .null = .str cid)
    (hcne : cid ≠ "")
    (htsv : (objGet data "timestamp").getD .null = tsv)
    (hts : pyInt tsv = some ts)
    (htr : truthy tsv = true)
    (hexp : now - ts ≤ 120)
    (hsig : (objGet data "signature").getD .null = .str (sign_challenge cid ts))
    (hpf : (objGet data "proof").getD (.str "") = .str (b64encode (strBytes ("swiped-" ++ cid)))) :
    api_verify store now data =
      afterChecks store cid
        (checkPoints store (.str cid) ((objGet data "points").getD (.arr []))) := by
  have t1 : truthy (JVal.str cid) = true := by
    simp only [truthy, bne_iff_ne, ne_eq]
    exact hcne
  have t3 : truthy (JVal.str (sign_challenge cid ts)) = true := by
    simp only [truthy, bne_iff_ne, ne_eq]
    exact sign_challenge_ne_empty cid ts
  have vs : verify_signature (pyStr (.str cid)) ts (sign_challenge cid ts) = some true := by
    simp [pyStr, verify_signature, compare_digest, sign_challenge_ascii]
  have pm : proofMatches (.str (b64encode (strBytes ("swiped-" ++ cid))))
      (b64encode (strBytes ("swiped-" ++ pyStr (.str cid)))) = true := by
    simp [pyStr, proofMatches]
  simp only [api_verify, hcid, htsv, hsig, hpf, hts, htr, t1, t3, Bool.and_self,
    Bool.and_true, Bool.true_and, Bool.not_true, Bool.false_eq_true, if_false]
  rw [if_neg (by omega : ¬ now - ts > 120)]
  simp only [vs, pm, Bool.not_true, Bool.false_eq_true, if_false]
  cases hcp : checkPoints store (.str cid) ((objGet data "points").getD (.arr [])) <;>
    simp [hcp, pyStr, afterChecks]

/-- The post-heuristics dispatch cannot produce a failure whose error name
the heuristics block cannot emit. -/
lemma afterChecks_ne_failure (store : Store) (cid : String) (o : HeurOutcome) (f : String)
    (hno : ∀ e, o = .reject e → e ≠ f) :
    (afterChecks store cid o).1 ≠ .failure f 400 := by
  cases o with
  | pass => simp [afterChecks]
  | crash => simp [afterChecks]
  | reject e => simpa [afterChecks] using hno e rfl


lemma timesIncreasing_iff_chain (l : List Int) :
    timesIncreasing l = true ↔ List.Chain' (fun a b => a < b) l := by
  induction l with
  | nil => simp [timesIncreasing]
  | cons a tail ih =>
    cases tail with
    | nil => simp [timesIncreasing]
    | cons b rest =>
      simp only [timesIncreasing, Bool.and_eq_true, decide_eq_true_eq, List.chain'_cons, ih]

/-- Which failure names can arise, and under which gate conditions: anything
after the expiry check carries one of the downstream error names. -/
lemma api_verify_error_origin (store : Store) (now : Int) (data : List (String × JVal))
    (e : String) (code : Nat)
    (h : (api_verify store now data).1 = .failure e code) :
    (e = "missing_params" ∧
       (truthy ((objGet data "challenge_id").getD .null) &&
        truthy ((objGet data "timestamp").getD .null) &&
        truthy ((objGet data "signature").getD .null)) = false) ∨
    (e = "bad_timestamp" ∧ pyInt ((objGet data "timestamp").getD .null) = none) ∨
    (e = "expired" ∧ ∃ ts, pyInt ((objGet data "timestamp").getD .null) = some ts ∧
       now - ts > 120) ∨
    (e = "invalid_signature" ∨ e = "invalid_proof" ∨ e = "malformed_points" ∨
       e = "bad_timing" ∨ e = "too_fast" ∨ e = "too_slow" ∨ e = "incomplete") := by
  by_cases hp : (truthy ((objGet data "challenge_id").getD .null) &&
        truthy ((objGet data "timestamp").getD .null) &&
        truthy ((objGet data "signature").getD .null)) = true
  case neg =>
    rw [Bool.not_eq_true] at hp
    refine Or.inl ⟨?_, hp⟩
    simp only [api_verify, hp, Bool.not_false, if_true] at h
    exact ((VerifyResult.failure.inj h).1).symm
  case pos =>
    simp only [api_verify, hp, Bool.not_true, Bool.false_eq_true, if_false] at h
    rcases hpi : pyInt ((objGet data "timestamp").getD .null) with _ | ts
    · simp only [hpi] at h
      exact Or.inr (Or.inl ⟨((VerifyResult.failure.inj h).1).symm, rfl⟩)
    · simp only [hpi] at h
      by_cases hex : now - ts > 120
      · rw [if_pos hex] at h
        exact Or.inr (Or.inr (Or.inl ⟨((VerifyResult.failure.inj h).1).symm,
          ts, rfl, hex⟩))
      · rw [if_neg hex] at h
        rcases hs : (objGet data "signature").getD .null with _ | b | n | sg | xs | fs <;>
          simp only [hs] at h
        · simp at h
        · simp at h
        · simp at h
        · rcases hv : verify_signature (pyStr ((objGet data "challenge_id").getD .null)) ts sg
              with _ | ok
          · simp only [hv] at h
            simp at h
          · simp only [hv] at h
            cases ok with
            | false =>
              simp only [Bool.not_false, if_true] at h
              exact Or.inr (Or.inr (Or.inr (Or.inl ((VerifyResult.failure.inj h).1).symm)))
            | true =>
              simp only [Bool.not_true, Bool.false_eq_true, if_false] at h
              by_cases hpm : proofMatches ((objGet data "proof").getD (.str ""))
                  (b64encode (strBytes
                    ("swiped-" ++ pyStr ((objGet data "challenge_id").getD .null)))) = true
              case neg =>
                rw [Bool.not_eq_true] at hpm
                simp only [hpm, Bool.not_false, if_true] at h
                exact Or.inr (Or.inr (Or.inr (Or.inr (Or.inl
                  ((VerifyResult.failure.inj h).1).symm))))
              case pos =>
                simp only [hpm, Bool.not_true, Bool.false_eq_true, if_false] at h
                rcases hcp : checkPoints store ((objGet data "challenge_id").getD .null)
                    ((objGet data "points").getD (.arr [])) with _ | er | _
                · simp only [hcp] at h
                  rcases hc : (objGet data "challenge_id").getD .null
                      with _ | b2 | n2 | s2 | xs2 | fs2 <;> simp only [hc] at h <;> simp at h
                · simp only [hcp] at h
                  have he : er = e := (VerifyResult.failure.inj h).1
                  rcases checkPoints_reject_cases _ _ _ _ hcp with h5 | h5 | h5 | h5 | h5 <;>
                    subst he <;> simp [h5]
                · simp only [hcp] at h
                  simp at h
        · simp at h
        · simp at h

/-- Every branch of the verify endpoint either leaves the store untouched or
returns a success. -/
lemma api_verify_store_cases (store : Store) (now : Int) (data : List (String × JVal)) :
    (api_verify store now data).2 = store ∨
      ∃ tok, (api_verify store now data).1 = .success tok := by
  simp only [api_verify]
  repeat' split
  all_goals simp

/-! ## Claim theorems -/

/-- C1: the spec requires one-time use (a replayed, already-verified bundle
must fail), and the code even comments "delete stored meta to avoid replay";
but the endpoint never rejects an id that is absent from the store, so the
identical bundle verifies successfully a second time, with the same token. -/
theorem c1_replay :
    api_verify [("cid", ⟨100, 230, "s"⟩)] 100
        [("challenge_id", .str "cid"), ("timestamp", .num 100),
         ("signature", .str (sign_challenge "cid" 100)),
         ("proof", .str (b64encode (strBytes "swiped-cid")))]
      = (.success (final_token "cid"), []) ∧
    api_verify [] 100
        [("challenge_id", .str "cid"), ("timestamp", .num 100),
         ("signature", .str (sign_challenge "cid" 100)),
         ("proof", .str (b64encode (strBytes "swiped-cid")))]
      = (.success (final_token "cid"), []) := by
  constructor
  · rw [api_verify_valid [("cid", ⟨100, 230, "s"⟩)] 100
        [("challenge_id", .str "cid"), ("timestamp", .num 100),
         ("signature", .str (sign_challenge "cid" 100)),
         ("proof", .str (b64encode (strBytes "swiped-cid")))]
        "cid" (.num 100) 100 rfl (by decide) rfl rfl (by decide) (by omega) rfl rfl]
    rfl
  · rw [api_verify_valid [] 100
        [("challenge_id", .str "cid"), ("timestamp", .num 100),
         ("signature", .str (sign_challenge "cid" 100)),
         ("proof", .str (b64encode (strBytes "swiped-cid")))]
        "cid" (.num 100) 100 rfl (by decide) rfl rfl (by decide) (by omega) rfl rfl]
    rfl

/-- C2 counterexample: a verify call with now - issuedAt exactly 120 is not
rejected as expired; it proceeds past the expiry check all the way to the
trace heuristics (here failing later as incomplete). -/
theorem c2_counterexample :
    (220 : Int) - 100 = 120 ∧
    (api_verify [] 220
        [("challenge_id", .str "a"), ("timestamp", .num 100),
         ("signature", .str (sign_challenge "a" 100)),
         ("proof", .str (b64encode (strBytes "swiped-a"))),
         ("points", .arr [.obj [("t", .num 0), ("x", .num 0)],
                          .obj [("t", .num 100), ("x", .num 0)]])]).1
      = .failure "incomplete" 400 := by
  refine ⟨by norm_num, ?_⟩
  rw [api_verify_valid [] 220
        [("challenge_id", .str "a"), ("timestamp", .num 100),
         ("signature", .str (sign_challenge "a" 100)),
         ("proof", .str (b64encode (strBytes "swiped-a"))),
         ("points", .arr [.obj [("t", .num 0), ("x", .num 0)],
                          .obj [("t", .num 100), ("x", .num 0)]])]
        "a" (.num 100) 100 rfl (by decide) rfl rfl (by decide) (by omega) rfl rfl]
  rfl

/-- C2 (amended): with the three parameters present-and-truthy and the
timestamp parsing to ts, the call is rejected as expired exactly when
now - ts is strictly greater than 120; at exactly 120 it proceeds. -/
theorem c2_expiry_iff (store : Store) (now : Int) (data : List (String × JVal)) (ts : Int)
    (hcv : truthy ((objGet data "challenge_id").getD .null) = true)
    (htv : truthy ((objGet data "timestamp").getD .null) = true)
    (hsv : truthy ((objGet data "signature").getD .null) = true)
    (hts : pyInt ((objGet data "timestamp").getD .null) = some ts) :
    ((api_verify store now data).1 = .failure "expired" 400 ↔ now - ts > 120) := by
  constructor
  · intro h
    rcases api_verify_error_origin store now data _ _ h with ⟨he, -⟩ | ⟨he, -⟩ |
      ⟨-, ts2, hts2, hgt⟩ | he
    · simp at he
    · simp at he
    · rw [hts] at hts2
      obtain rfl : ts2 = ts := (Option.some.inj hts2).symm
      exact hgt
    · rcases he with he | he | he | he | he | he | he <;> simp at he
  · intro hgt
    simp only [api_verify, hcv, htv, hsv, Bool.and_self, Bool.and_true, Bool.true_and,
      Bool.not_true, Bool.false_eq_true, if_false, hts]
    rw [if_pos hgt]

/-- Witness for C2 at a concrete fresh call. -/
theorem c2_expiry_iff_witness :
    ((api_verify [] 0
        [("challenge_id", .str "a"), ("timestamp", .num 100),
         ("signature", .str "x")]).1 = .failure "expired" 400 ↔ (0 : Int) - 100 > 120) :=
  c2_expiry_iff [] 0 _ 100 (by decide) (by decide) (by decide) rfl

/-- C3 counterexample: a bundle whose three fields are all present, with the
integer timestamp 0, is nevertheless rejected as missing_params (Python
truthiness treats 0 as absent). -/
theorem c3_counterexample :
    (api_verify [] 100
        [("challenge_id", .str "a"), ("timestamp", .num 0), ("signature", .str "x")]).1
      = .failure "missing_params" 400 := rfl

/-- C3 (amended): verify rejects with missing_params exactly when one of
challenge_id, timestamp, signature is absent or falsy under Python
truthiness (None, false, 0, empty string, empty list, empty object). -/
theorem c3_missing_params_iff (store : Store) (now : Int) (data : List (String × JVal)) :
    (api_verify store now data).1 = .failure "missing_params" 400 ↔
      (truthy ((objGet data "challenge_id").getD .null) &&
       truthy ((objGet data "timestamp").getD .null) &&
       truthy ((objGet data "signature").getD .null)) = false := by
  constructor
  · intro h
    rcases api_verify_error_origin store now data _ _ h with ⟨-, hc⟩ | ⟨he, -⟩ | ⟨he, -⟩ | he
    · exact hc
    · simp at he
    · simp at he
    · rcases he with he | he | he | he | he | he | he <;> simp at he
  · intro hc
    simp only [api_verify, hc, Bool.not_false, if_true]

/-- Witness for C3 at a concrete empty body. -/
theorem c3_missing_params_iff_witness :
    (api_verify [] 0 []).1 = .failure "missing_params" 400 :=
  (c3_missing_params_iff [] 0 []).mpr (by decide)

/-- C4: on an otherwise-valid bundle with a supplied non-empty, well-formed,
strictly increasing trace, an elapsed time below 60 ms is rejected as
too_fast, above 10000 ms as too_slow, and 60 up to 10000 passes the timing
check. -/
theorem c4_timing_window (store : Store) (now : Int) (data : List (String × JVal))
    (cid : String) (tsv : JVal) (ts : Int) (ps : List JVal) (times xs : List Int)
    (hcid : (objGet data "challenge_id").getD .null = .str cid)
    (hcne : cid ≠ "")
    (htsv : (objGet data "timestamp").getD .null = tsv)
    (hts : pyInt tsv = some ts)
    (htr : truthy tsv = true)
    (hexp : now - ts ≤ 120)
    (hsig : (objGet data "signature").getD .null = .str (sign_challenge cid ts))
    (hpf : (objGet data "proof").getD (.str "") = .str (b64encode (strBytes ("swiped-" ++ cid))))
    (hpts : (objGet data "points").getD (.arr []) = .arr ps)
    (hne : ps ≠ [])
    (hT : ps.mapM sampleT = some times)
    (hX : ps.mapM sampleX = some xs)
    (hmono : timesIncreasing times = true) :
    (times.getLastD 0 - times.headD 0 < 60 →
       (api_verify store now data).1 = .failure "too_fast" 400) ∧
    (60 ≤ times.getLastD 0 - times.headD 0 → times.getLastD 0 - times.headD 0 ≤ 10000 →
       (api_verify store now data).1 ≠ .failure "too_fast" 400 ∧
       (api_verify store now data).1 ≠ .failure "too_slow" 400) ∧
    (10000 < times.getLastD 0 - times.headD 0 →
       (api_verify store now data).1 = .failure "too_slow" 400) := by
  have hie : ps.isEmpty = false := by
    cases ps
    · exact absurd rfl hne
    · rfl
  rw [api_verify_valid store now data cid tsv ts hcid hcne htsv hts htr hexp hsig hpf, hpts]
  simp only [checkPoints, hie, Bool.false_eq_true, if_false, hT, hX, hmono, Bool.not_true]
  refine ⟨?_, ?_, ?_⟩
  · intro hfast
    rw [if_pos hfast]
    rfl
  · intro h60 h10k
    rw [if_neg (by omega), if_neg (by omega)]
    constructor <;> refine afterChecks_ne_failure store cid _ _ ?_ <;>
    · intro e he
      split at he
      · obtain rfl := HeurOutcome.reject.inj he
        decide
      · exact absurd he (by simp)
  · intro hslow
    rw [if_neg (by omega), if_pos hslow]
    rfl

/-- Witness for C4: a 100 ms two-sample trace is neither too fast nor too
slow. -/
theorem c4_timing_window_witness :
    (api_verify [] 50
        [("challenge_id", .str "c"), ("timestamp", .num 50),
         ("signature", .str (sign_challenge "c" 50)),
         ("proof", .str (b64encode (strBytes "swiped-c"))),
         ("points", .arr [.obj [("t", .num 0), ("x", .num 0)],
                          .obj [("t", .num 100), ("x", .num 250)]])]).1
      ≠ .failure "too_fast" 400 ∧
    (api_verify [] 50
        [("challenge_id", .str "c"), ("timestamp", .num 50),
         ("signature", .str (sign_challenge "c" 50)),
         ("proof", .str (b64encode (strBytes "swiped-c"))),
         ("points", .arr [.obj [("t", .num 0), ("x", .num 0)],
                          .obj [("t", .num 100), ("x", .num 250)]])]).1
      ≠ .failure "too_slow" 400 :=
  (c4_timing_window [] 50
    [("challenge_id", .str "c"), ("timestamp", .num 50),
     ("signature", .str (sign_challenge "c" 50)),
     ("proof", .str (b64encode (strBytes "swiped-c"))),
     ("points", .arr [.obj [("t", .num 0), ("x", .num 0)],
                      .obj [("t", .num 100), ("x", .num 250)]])]
    "c" (.num 50) 50
    [.obj [("t", .num 0), ("x", .num 0)], .obj [("t", .num 100), ("x", .num 250)]]
    [0, 100] [0, 250] rfl (by decide) rfl rfl (by decide) (by decide) rfl rfl rfl
    (by simp) rfl rfl rfl).2.1 (by decide) (by decide)

/-- C5: on an otherwise-valid bundle whose supplied trace passes the parse,
monotonicity and timing checks, a final position below the stored
minDragDistance (default 230 when the store has no metadata for the id) is
rejected as incomplete; a final position at or above it succeeds. -/
theorem c5_completion_threshold (store : Store) (now : Int) (data : List (String × JVal))
    (cid : String) (tsv : JVal) (ts : Int) (ps : List JVal) (times xs : List Int)
    (hcid : (objGet data "challenge_id").getD .null = .str cid)
    (hcne : cid ≠ "")
    (htsv : (objGet data "timestamp").getD .null = tsv)
    (hts : pyInt tsv = some ts)
    (htr : truthy tsv = true)
    (hexp : now - ts ≤ 120)
    (hsig : (objGet data "signature").getD .null = .str (sign_challenge cid ts))
    (hpf : (objGet data "proof").getD (.str "") = .str (b64encode (strBytes ("swiped-" ++ cid))))
    (hpts : (objGet data "points").getD (.arr []) = .arr ps)
    (hne : ps ≠ [])
    (hT : ps.mapM sampleT = some times)
    (hX : ps.mapM sampleX = some xs)
    (hmono : timesIncreasing times = true)
    (h60 : 60 ≤ times.getLastD 0 - times.headD 0)
    (h10k : times.getLastD 0 - times.headD 0 ≤ 10000) :
    (xs.getLastD 0 < minDragOf store (.str cid) →
       (api_verify store now data).1 = .failure "incomplete" 400) ∧
    (minDragOf store (.str cid) ≤ xs.getLastD 0 →
       (api_verify store now data).1 = .success (final_token cid)) := by
  have hie : ps.isEmpty = false := by
    cases ps
    · exact absurd rfl hne
    · rfl
  rw [api_verify_valid store now data cid tsv ts hcid hcne htsv hts htr hexp hsig hpf, hpts]
  simp only [checkPoints, hie, Bool.false_eq_true, if_false, hT, hX, hmono, Bool.not_true]
  rw [if_neg (by omega), if_neg (by omega)]
  constructor
  · intro hlt
    rw [if_pos hlt]
    rfl
  · intro hge
    rw [if_neg (by omega)]
    rfl

/-- Witness for C5: with no stored metadata, a final position of 250 clears
the default threshold 230 and the bundle succeeds. -/
theorem c5_completion_threshold_witness :
    (api_verify [] 50
        [("challenge_id", .str "c"), ("timestamp", .num 50),
         ("signature", .str (sign_challenge "c" 50)),
         ("proof", .str (b64encode (strBytes "swiped-c"))),
         ("points", .arr [.obj [("t", .num 0), ("x", .num 0)],
                          .obj [("t", .num 100), ("x", .num 250)]])]).1
      = .success (final_token "c") :=
  (c5_completion_threshold [] 50
    [("challenge_id", .str "c"), ("timestamp", .num 50),
     ("signature", .str (sign_challenge "c" 50)),
     ("proof", .str (b64encode (strBytes "swiped-c"))),
     ("points", .arr [.obj [("t", .num 0), ("x", .num 0)],
                      .obj [("t", .num 100), ("x", .num 250)]])]
    "c" (.num 50) 50
    [.obj [("t", .num 0), ("x", .num 0)], .obj [("t", .num 100), ("x", .num 250)]]
    [0, 100] [0, 250] rfl (by decide) rfl rfl (by decide) (by decide) rfl rfl rfl
    (by simp) rfl rfl rfl (by decide) (by decide)).2 (by decide)

/-- C6: on an otherwise-valid bundle with a supplied non-empty, well-formed
trace, a time sequence that is not strictly increasing (any sample at or
below its predecessor) is rejected as bad_timing; strictly increasing times
pass this check. -/
theorem c6_monotonic_timing (store : Store) (now : Int) (data : List (String × JVal))
    (cid : String) (tsv : JVal) (ts : Int) (ps : List JVal) (times xs : List Int)
    (hcid : (objGet data "challenge_id").getD .null = .str cid)
    (hcne : cid ≠ "")
    (htsv : (objGet data "timestamp").getD .null = tsv)
    (hts : pyInt tsv = some ts)
    (htr : truthy tsv = true)
    (hexp : now - ts ≤ 120)
    (hsig : (objGet data "signature").getD .null = .str (sign_challenge cid ts))
    (hpf : (objGet data "proof").getD (.str "") = .str (b64encode (strBytes ("swiped-" ++ cid))))
    (hpts : (objGet data "points").getD (.arr []) = .arr ps)
    (hne : ps ≠ [])
    (hT : ps.mapM sampleT = some times)
    (hX : ps.mapM sampleX = some xs) :
    (¬ List.Chain' (fun a b => a < b) times →
       (api_verify store now data).1 = .failure "bad_timing" 400) ∧
    (List.Chain' (fun a b => a < b) times →
       (api_verify store now data).1 ≠ .failure "bad_timing" 400) := by
  have hie : ps.isEmpty = false := by
    cases ps
    · exact absurd rfl hne
    · rfl
  rw [api_verify_valid store now data cid tsv ts hcid hcne htsv hts htr hexp hsig hpf, hpts]
  simp only [checkPoints, hie, Bool.false_eq_true, if_false, hT, hX]
  constructor
  · intro hbad
    have htI : timesIncreasing times = false := by
      cases htI : timesIncreasing times
      · rfl
      · exact absurd ((timesIncreasing_iff_chain times).mp htI) hbad
    rw [htI]
    rfl
  · intro hchain
    rw [(timesIncreasing_iff_chain times).mpr hchain]
    simp only [Bool.not_true, Bool.false_eq_true, if_false]
    refine afterChecks_ne_failure store cid _ _ ?_
    intro e he
    split at he
    · obtain rfl := HeurOutcome.reject.inj he
      decide
    · split at he
      · obtain rfl := HeurOutcome.reject.inj he
        decide
      · split at he
        · obtain rfl := HeurOutcome.reject.inj he
          decide
        · exact absurd he (by simp)

/-- Witness for C6: the strictly increasing trace [0, 100] is not rejected
as bad_timing. -/
theorem c6_monotonic_timing_witness :
    (api_verify [] 50
        [("challenge_id", .str "c"), ("timestamp", .num 50),
         ("signature", .str (sign_challenge "c" 50)),
         ("proof", .str (b64encode (strBytes "swiped-c"))),
         ("points", .arr [.obj [("t", .num 0), ("x", .num 0)],
                          .obj [("t", .num 100), ("x", .num 250)]])]).1
      ≠ .failure "bad_timing" 400 :=
  (c6_monotonic_timing [] 50
    [("challenge_id", .str "c"), ("timestamp", .num 50),
     ("signature", .str (sign_challenge "c" 50)),
     ("proof", .str (b64encode (strBytes "swiped-c"))),
     ("points", .arr [.obj [("t", .num 0), ("x", .num 0)],
                      .obj [("t", .num 100), ("x", .num 250)]])]
    "c" (.num 50) 50
    [.obj [("t", .num 0), ("x", .num 0)], .obj [("t", .num 100), ("x", .num 250)]]
    [0, 100] [0, 250] rfl (by decide) rfl rfl (by decide) (by decide) rfl rfl rfl
    (by simp) rfl rfl).2 (by simp [List.chain'_pair])

/-- C7: a non-expired, correctly signed, correctly proved bundle that omits
points entirely (or supplies an empty list) succeeds with a token without
invoking any trace heuristic check. -/
theorem c7_no_points_success (store : Store) (now : Int) (data : List (String × JVal))
    (cid : String) (tsv : JVal) (ts : Int)
    (hcid : (objGet data "challenge_id").getD .null = .str cid)
    (hcne : cid ≠ "")
    (htsv : (objGet data "timestamp").getD .null = tsv)
    (hts : pyInt tsv = some ts)
    (htr : truthy tsv = true)
    (hexp : now - ts ≤ 120)
    (hsig : (objGet data "signature").getD .null = .str (sign_challenge cid ts))
    (hpf : (objGet data "proof").getD (.str "") = .str (b64encode (strBytes ("swiped-" ++ cid))))
    (hpts : objGet data "points" = none ∨ objGet data "points" = some (.arr [])) :
    (api_verify store now data).1 = .success (final_token cid) := by
  rw [api_verify_valid store now data cid tsv ts hcid hcne htsv hts htr hexp hsig hpf]
  rcases hpts with h | h <;> rw [h] <;> rfl

/-- Witness for C7: a valid bundle with no points field succeeds. -/
theorem c7_no_points_success_witness :
    (api_verify [] 50
        [("challenge_id", .str "c"), ("timestamp", .num 50),
         ("signature", .str (sign_challenge "c" 50)),
         ("proof", .str (b64encode (strBytes "swiped-c")))]).1
      = .success (final_token "c") :=
  c7_no_points_success [] 50
    [("challenge_id", .str "c"), ("timestamp", .num 50),
     ("signature", .str (sign_challenge "c" 50)),
     ("proof", .str (b64encode (strBytes "swiped-c")))]
    "c" (.num 50) 50 rfl (by decide) rfl rfl (by decide) (by decide) rfl rfl
    (Or.inl rfl)

/-- C8: every verify call whose outcome is a failure leaves the challenge
store exactly as it was; only the success path mutates it. -/
theorem c8_failure_preserves_store (store : Store) (now : Int) (data : List (String × JVal))
    (e : String) (code : Nat)
    (h : (api_verify store now data).1 = .failure e code) :
    (api_verify store now data).2 = store := by
  rcases api_verify_store_cases store now data with h2 | ⟨tok, h2⟩
  · exact h2
  · rw [h] at h2
    cases h2

/-- Witness for C8: a missing_params rejection leaves the store unchanged. -/
theorem c8_failure_preserves_store_witness :
    (api_verify [("a", ⟨1, 230, "s"⟩)] 0 []).2 = [("a", ⟨1, 230, "s"⟩)] :=
  c8_failure_preserves_store [("a", ⟨1, 230, "s"⟩)] 0 [] "missing_params" 400 rfl

/-- C9 counterexample: the claim demands that verify_signature return false
for every signature differing from the true one, including any single
altered bit; but a differing signature that contains a non-ASCII character
(such as a hex character with its top bit flipped, here the byte 0xb0)
makes `hmac.compare_digest` raise TypeError instead of returning false. -/
theorem c9_counterexample :
    "\xb0" ≠ sign_challenge "abc" 7 ∧ verify_signature "abc" 7 "\xb0" = none := by
  constructor
  · intro h
    have h2 := congrArg (fun s => s.data.length) h
    simp only [sign_challenge] at h2
    rw [toHex_data_length, hmacSha256_length] at h2
    exact absurd h2 (by decide)
  · simp [verify_signature, compare_digest,
      show isAsciiStr "\xb0" = false from by decide]

/-- C9 (amended): for all (id, issuedAt) the signature produced by
sign_challenge verifies as true; an ASCII signature differing from it in any
way is rejected (verify_signature returns false); a signature containing any
non-ASCII character (for example one with an altered high bit) makes the
comparison raise TypeError rather than return false. -/
theorem c9_signature_roundtrip (challenge_id : String) (ts : Int) (sig : String) :
    verify_signature challenge_id ts (sign_challenge challenge_id ts) = some true ∧
      (isAsciiStr sig = true → sig ≠ sign_challenge challenge_id ts →
        verify_signature challenge_id ts sig = some false) ∧
      (isAsciiStr sig = false → verify_signature challenge_id ts sig = none) := by
  refine ⟨?_, fun ha h => ?_, fun ha => ?_⟩
  · simp [verify_signature, compare_digest, sign_challenge_ascii]
  · simp only [verify_signature, compare_digest, sign_challenge_ascii, ha, Bool.and_self,
      if_true, Option.some.injEq, beq_eq_false_iff_ne, ne_eq]
    exact fun hh => h hh.symm
  · simp [verify_signature, compare_digest, ha]

/-- Witness for C9 at a concrete id and time: the true signature verifies,
an empty (ASCII) signature is rejected as false, and a non-ASCII signature
raises. -/
theorem c9_signature_roundtrip_witness :
    verify_signature "abc" 7 (sign_challenge "abc" 7) = some true ∧
      verify_signature "abc" 7 "" = some false ∧
      verify_signature "abc" 7 "\xb0" = none :=
  ⟨(c9_signature_roundtrip "abc" 7 "").1,
   (c9_signature_roundtrip "abc" 7 "").2.1 (by decide)
     (fun h => sign_challenge_ne_empty "abc" 7 h.symm),
   (c9_signature_roundtrip "abc" 7 "\xb0").2.2 (by decide)⟩

/-- C10: when points is present but not a list, the whole heuristics block
(including the malformed_points check) is skipped and an otherwise-valid
bundle succeeds. -/
theorem c10_nonlist_points_success (store : Store) (now : Int) (data : List (String × JVal))
    (cid : String) (tsv : JVal) (ts : Int) (pv : JVal)
    (hcid : (objGet data "challenge_id").getD .null = .str cid)
    (hcne : cid ≠ "")
    (htsv : (objGet data "timestamp").getD .null = tsv)
    (hts : pyInt tsv = some ts)
    (htr : truthy tsv = true)
    (hexp : now - ts ≤ 120)
    (hsig : (objGet data "signature").getD .null = .str (sign_challenge cid ts))
    (hpf : (objGet data "proof").getD (.str "") = .str (b64encode (strBytes ("swiped-" ++ cid))))
    (hpv : objGet data "points" = some pv)
    (hnl : ∀ xs, pv ≠ .arr xs) :
    (api_verify store now data).1 = .success (final_token cid) := by
  rw [api_verify_valid store now data cid tsv ts hcid hcne htsv hts htr hexp hsig hpf, hpv]
  cases pv with
  | arr xs => exact absurd rfl (hnl xs)
  | null => rfl
  | bool b => rfl
  | num n => rfl
  | str s => rfl
  | obj fs => rfl

/-- Witness for C10: a string-valued points field is ignored and the bundle
succeeds. -/
theorem c10_nonlist_points_success_witness :
    (api_verify [] 50
        [("challenge_id", .str "c"), ("timestamp", .num 50),
         ("signature", .str (sign_challenge "c" 50)),
         ("proof", .str (b64encode (strBytes "swiped-c"))),
         ("points", .str "bogus")]).1
      = .success (final_token "c") :=
  c10_nonlist_points_success [] 50
    [("challenge_id", .str "c"), ("timestamp", .num 50),
     ("signature", .str (sign_challenge "c" 50)),
     ("proof", .str (b64encode (strBytes "swiped-c"))),
     ("points", .str "bogus")]
    "c" (.num 50) 50 (.str "bogus") rfl (by decide) rfl rfl (by decide) (by decide)
    rfl rfl rfl (fun xs h => JVal.noConfusion h)

end Aman
